import Mathlib

/-!
# Verification model of the EAR_Challenge2025 evaluation pipeline

Shallow embedding of the two Python evaluation scripts of the repository:

* `src/challenge_data/challenge_1/main.py` — the JSON ("structured") variant:
  `validate_url` plus `evaluate`, which loads JSON ground truth / submission,
  validates the two links (advisory: the raise is commented out), reconciles
  key sets, computes accuracy and weighted F1 through sklearn, optionally
  POSTs a Discord message, and returns a nested result payload.
* `src/evaluation_script/main_ear.py` — the CSV ("tabular") variant:
  the same `validate_url`, plus `evaluate`, which reads CSV rows, extracts
  the model / pdf links from rows 0 and 1 (`split(":")[-1].strip()`),
  validates them fatally, builds `{id -> label}` maps from rows 2+,
  reconciles key sets and returns a flat metric payload.

File and network I/O and the sklearn metric formulas are external
collaborators; they are modelled respectively as already-parsed input
values, as oracle functions `String → NetResult`, and as opaque metric
functions passed in a `MetricFns` record.  Both `evaluate` functions also
return the ordered list of observable events (HEAD requests, POSTs, metric
computation, printed diagnostics) so that "before any metric computation" /
"no network access" statements can be expressed.
-/

set_option autoImplicit false

/-- Python exceptions that the two scripts can raise.
`keyError k` models `KeyError: k` from `data["predictions"]` / `item["video_id"]`;
`valueError msg` models `raise ValueError(msg)`;
`indexError` models `IndexError` from `rows[i]` / `row[i]` on short input. -/
inductive EvalError where
  | keyError (k : String)
  | valueError (msg : String)
  | indexError
  deriving DecidableEq, Repr

/-- Outcome of one network request (`requests.head` or `requests.post`):
either an HTTP response with a status code, or a raised `requests.RequestException`. -/
inductive NetResult where
  | status (code : Nat)
  | failure (msg : String)
  deriving DecidableEq, Repr

/-- Observable events of an evaluation run, in program order:
`head url` — an outgoing HEAD request, `post url` — an outgoing POST,
`metrics` — the call into the sklearn metric functions,
`diag msg` — a `print(...)` diagnostic. -/
inductive Event where
  | head (url : String)
  | post (url : String)
  | metrics
  | diag (msg : String)
  deriving DecidableEq, Repr

def isHead : Event → Bool
  | .head _ => true
  | _ => false

def isPost : Event → Bool
  | .post _ => true
  | _ => false

def isDiag : Event → Bool
  | .diag _ => true
  | _ => false

def exIsOk {ε α : Type} : Except ε α → Bool
  | .ok _ => true
  | .error _ => false

/-! ## Python `dict` model

A Python `dict` built from string keys to string values, modelled as an
association list in insertion order.  Inserting an existing key overwrites
its value in place (keeping its position); inserting a new key appends.
This preserves the iteration-order semantics of CPython dicts, which the
`y_true` / `y_pred` construction of both scripts depends on. -/

abbrev Dict := List (String × String)

def keysMem (m : Dict) (k : String) : Bool := m.any (fun p => p.1 == k)

def dinsert (m : Dict) (k v : String) : Dict :=
  if keysMem m k then m.map (fun p => if p.1 == k then (p.1, v) else p)
  else m ++ [(k, v)]

/-- `{k: v for (k, v) in l}` — left-to-right insertion, last write wins. -/
def dictOfPairs (l : List (String × String)) : Dict :=
  l.foldl (fun m p => dinsert m p.1 p.2) []

/-- `m[k]` for a key known to be present (defaults to `""` otherwise). -/
def dget (m : Dict) (k : String) : String :=
  ((m.find? (fun p => p.1 == k)).map Prod.snd).getD ""

/-- `list(m.keys())`, in iteration (= insertion) order. -/
def dkeys (m : Dict) : List String := m.map Prod.fst

/-- `set(a.keys()) == set(b.keys())` — mutual inclusion of key sets. -/
def sameKeys (a b : Dict) : Bool :=
  a.all (fun p => keysMem b p.1) && b.all (fun p => keysMem a p.1)

/-- `[m[k] for k in m]` — the label sequence in the dict's iteration order
(lines 84–85 of `challenge_1/main.py`, lines 79–80 of `main_ear.py`). -/
def labelsOf (m : Dict) : List String := m.map (fun p => dget m p.1)

/-! ## Python string helpers: `split`, `strip` -/

/-- Python `s.split(sep)` for a one-character separator: always returns
`n+1` (possibly empty) parts for `n` occurrences of `sep`. -/
def pySplit (sep : Char) : List Char → List (List Char)
  | [] => [[]]
  | c :: cs =>
    match pySplit sep cs with
    | [] => [[]]
    | h :: t => if c = sep then [] :: h :: t else (c :: h) :: t

/-- Whitespace characters removed by Python `str.strip()` (ASCII subset). -/
def isPySpace (c : Char) : Bool :=
  c == ' ' || c == '\t' || c == '\n' || c == '\r' || c == '\x0b' || c == '\x0c'

def lstrip (s : List Char) : List Char := s.dropWhile isPySpace

/-- Remove the maximal whitespace suffix. -/
def rstrip : List Char → List Char
  | [] => []
  | c :: cs =>
    match rstrip cs with
    | [] => if isPySpace c then [] else [c]
    | r => c :: r

/-- Python `s.strip()`. -/
def pyStrip (s : List Char) : List Char := rstrip (lstrip s)

/-- Source-side link extraction, mirroring
`cell.split(":")[-1].strip()` (lines 62–63 of `main_ear.py`). -/
def extract_link (cell : String) : String :=
  String.mk (pyStrip ((pySplit ':' cell.toList).getLastD []))

/-- `pat` is a prefix of `s` (character lists). -/
def startsWithL : List Char → List Char → Bool
  | [], _ => true
  | _ :: _, [] => false
  | p :: ps, c :: cs => p == c && startsWithL ps cs

/-- `pat in s` — `pat` occurs as a contiguous substring of `s`. -/
def hasSub (pat : List Char) : List Char → Bool
  | [] => startsWithL pat []
  | c :: cs => startsWithL pat (c :: cs) || hasSub pat cs

/-- Spec-side definition for claim C6: "the substring after the last colon"
of a string, written as a direct recursion (if the separator still occurs in
the tail, recurse; otherwise the answer starts right after this separator,
or is the whole string when no separator occurs at all). -/
def afterLastSep (sep : Char) : List Char → List Char
  | [] => []
  | c :: cs =>
    if sep ∈ cs then afterLastSep sep cs
    else if c = sep then cs else c :: cs

/-! ## The URL format regular expression

Both scripts compile
`^(https?:\/\/)?(([a-zA-Z0-9_-]+\.)+[a-zA-Z]{2,})(\/[-a-zA-Z0-9@:%_+.~#?&/=]*)?$`
and test it with `re.match`.  The matcher below is a hand compilation of
this specific pattern:

* the domain character class `[a-zA-Z0-9_-]` and the TLD class `[a-zA-Z]`
  do not contain `'.'` or `'/'`, so the `(label\.)+tld` part corresponds
  exactly to the `'.'`-separated segments of the domain text;
* the domain classes do not contain `'/'` and the path group must start
  with `'/'`, so the path group, when the string contains a `'/'`, starts
  exactly at the first `'/'`;
* `re.match` anchors at the start, and the trailing `$` (no `re.MULTILINE`)
  accepts either the end of the string or a position just before a single
  trailing newline.
-/

/-- `[a-zA-Z]` (ASCII, as in Python `re` without `re.UNICODE` tricks). -/
def isAsciiLetter (c : Char) : Bool :=
  (decide (97 ≤ c.toNat) && decide (c.toNat ≤ 122)) ||
  (decide (65 ≤ c.toNat) && decide (c.toNat ≤ 90))

/-- `[0-9]`. -/
def isAsciiDigit (c : Char) : Bool :=
  decide (48 ≤ c.toNat) && decide (c.toNat ≤ 57)

/-- `[a-zA-Z0-9_-]`, the domain-label character class. -/
def isDomainChar (c : Char) : Bool :=
  isAsciiLetter c || isAsciiDigit c || c == '_' || c == '-'

/-- `[-a-zA-Z0-9@:%_+.~#?&/=]`, the path character class. -/
def isPathChar (c : Char) : Bool :=
  isAsciiLetter c || isAsciiDigit c ||
    "-@:%_+.~#?&/=".toList.contains c

/-- `(([a-zA-Z0-9_-]+\.)+[a-zA-Z]{2,})`: at least one dot-terminated
nonempty label of domain characters, then a top-level label of at least
two letters. -/
def matchDomain (t : List Char) : Bool :=
  let segs := pySplit '.' t
  decide (2 ≤ segs.length) &&
    segs.dropLast.all (fun l => !l.isEmpty && l.all isDomainChar) &&
    (let tld := segs.getLastD []
     decide (2 ≤ tld.length) && tld.all isAsciiLetter)

/-- Domain followed by the optional path group `(\/[-a-zA-Z0-9@:%_+.~#?&/=]*)?`. -/
def matchDomainPath (s : List Char) : Bool :=
  match s.findIdx? (· == '/') with
  | none => matchDomain s
  | some i => matchDomain (s.take i) && (s.drop (i + 1)).all isPathChar

/-- The whole pattern body, with the optional scheme `(https?:\/\/)?`
expanded into its three alternatives. -/
def matchURLcore (s : List Char) : Bool :=
  matchDomainPath s ||
    (s.take 7 == "http://".toList && matchDomainPath (s.drop 7)) ||
    (s.take 8 == "https://".toList && matchDomainPath (s.drop 8))

/-- `re.match(regex, url)` viewed as a Boolean: anchored at the start, and
`$` accepts the end of the string or the position before one trailing
newline. -/
def re_match_url (url : String) : Bool :=
  let s := url.toList
  matchURLcore s || (s.getLastD ' ' == '\n' && matchURLcore s.dropLast)

/-! ## `validate_url` (identical in both scripts) -/

/-- `validate_url(url, url_type)`: format check first (fail closed without
touching the network), then a single HEAD request through the `probe`
oracle; success iff the status is exactly 200.  Returns the Boolean result
together with the emitted events in program order. -/
def validate_url (probe : String → NetResult) (url url_type : String) :
    Bool × List Event :=
  if re_match_url url then
    match probe url with
    | .status code =>
      if code = 200 then (true, [.head url])
      else (false, [.head url,
        .diag (url_type ++ " URL not reachable (Status code: " ++
          toString code ++ "): " ++ url)])
    | .failure e =>
      (false, [.head url,
        .diag ("Error validating " ++ url_type ++ " URL: " ++ url ++
          ". Error: " ++ e)])
  else
    (false, [.diag ("Invalid " ++ url_type ++ " URL format: " ++ url)])


/-! ## JSON values and result payloads -/

/-- Just enough of JSON to express the returned payloads of both scripts. -/
inductive JVal where
  | num (q : ℚ)
  | str (s : String)
  | arr (l : List JVal)
  | obj (l : List (String × JVal))

/-- Field lookup in a JSON object. -/
def jfield (v : JVal) (k : String) : Option JVal :=
  match v with
  | .obj l => (l.find? (fun p => p.1 == k)).map Prod.snd
  | _ => none

/-- The keys of a JSON object (empty for non-objects). -/
def topKeysV (v : JVal) : List String :=
  match v with
  | .obj l => l.map Prod.fst
  | _ => []

/-- The top-level keys of a successful result. -/
def topKeys (r : Except EvalError JVal) : List String :=
  match r with
  | .ok v => topKeysV v
  | .error _ => []

/-- Two-level field lookup in a successful result. -/
def okField2 (r : Except EvalError JVal) (k1 k2 : String) : Option JVal :=
  match r with
  | .ok v => (jfield v k1).bind (fun u => jfield u k2)
  | .error _ => none

def intMatrixToJ (m : List (List Int)) : JVal :=
  .arr (m.map (fun row => .arr (row.map (fun z => JVal.num (z : ℚ)))))

/-! ## Structured (JSON) input model

Parsing the JSON files is external I/O; `evaluate` of
`challenge_1/main.py` receives the already-parsed values.  A record of the
`predictions` list is a JSON object of strings; `item["field"]` raises
`KeyError` when absent, while `data.get("HF_Link", "")` defaults to `""`. -/

abbrev JObj := List (String × String)

def jget (o : JObj) (k : String) : Except EvalError String :=
  match o.find? (fun p => p.1 == k) with
  | some p => .ok p.2
  | none => .error (.keyError k)

/-- A parsed input JSON file: the optional `predictions` list and the two
optional link fields (only read on the submission side). -/
structure JFile where
  predictions : Option (List JObj)
  hf_link : Option String
  pdf_link : Option String

/-- `data["predictions"]` — `KeyError` when the container is missing. -/
def getPredictions (f : JFile) : Except EvalError (List JObj) :=
  match f.predictions with
  | some l => .ok l
  | none => .error (.keyError "predictions")

/-- `{item[keyField]: item[valField] for item in items}` — left to right,
key expression evaluated before the value expression, `KeyError` aborts. -/
def buildMapJGo (keyField valField : String) (acc : Dict) :
    List JObj → Except EvalError Dict
  | [] => .ok acc
  | item :: rest =>
    match jget item keyField with
    | .error e => .error e
    | .ok k =>
      match jget item valField with
      | .error e => .error e
      | .ok v => buildMapJGo keyField valField (dinsert acc k v) rest

def buildMapJ (items : List JObj) (keyField valField : String) :
    Except EvalError Dict :=
  buildMapJGo keyField valField [] items

/-! ## Tabular (CSV) input model -/

/-- `rows[i][0]` — the first cell of row `i`, `IndexError` on short input. -/
def cellAt (rows : List (List String)) (i : Nat) : Except EvalError String :=
  match rows.get? i with
  | none => .error .indexError
  | some r =>
    match r.get? 0 with
    | none => .error .indexError
    | some c => .ok c

/-- `{row[0]: row[1] for idx, row in enumerate(rows) if idx >= 2}` —
`idx` is the running row index, `row[0]` / `row[1]` raise `IndexError`
on rows with fewer than two cells. -/
def loadRowsGo (idx : Nat) (acc : Dict) :
    List (List String) → Except EvalError Dict
  | [] => .ok acc
  | r :: rs =>
    if 2 ≤ idx then
      match r.get? 0 with
      | none => .error .indexError
      | some k =>
        match r.get? 1 with
        | none => .error .indexError
        | some v => loadRowsGo (idx + 1) (dinsert acc k v) rs
    else loadRowsGo (idx + 1) acc rs

/-- The tabular loader (lines 52–54 and 72 of `main_ear.py`). -/
def load_tabular_map (rows : List (List String)) : Except EvalError Dict :=
  loadRowsGo 0 [] rows

/-! ## The external sklearn metric contract -/

/-- The sklearn calls both scripts make, taken as opaque pure functions of
`(y_true, y_pred)` (the spec's external `compute_metrics` contract). -/
structure MetricFns where
  accuracy_score : List String → List String → ℚ
  precision_score : List String → List String → ℚ
  recall_score : List String → List String → ℚ
  f1_score : List String → List String → ℚ
  confusion_matrix : List String → List String → List (List Int)

/-- The spec's accuracy formula (fraction of indices that agree), used to
instantiate the contract in concrete runs. -/
def accuracy_model (a b : List String) : ℚ :=
  (((a.zip b).countP (fun p => p.1 == p.2) : ℚ)) / ((a.length : ℚ))

/-- A division-free accuracy (the raw agreement count), used where a
concrete run must be evaluated inside `decide`. -/
def count_accuracy (a b : List String) : ℚ :=
  (((a.zip b).countP (fun p => p.1 == p.2) : ℕ) : ℚ)

def zero_metric (_ _ : List String) : ℚ := 0

def zero_conf (_ _ : List String) : List (List Int) := []

def demoMetrics : MetricFns :=
  ⟨accuracy_model, zero_metric, zero_metric, zero_metric, zero_conf⟩

def countMetrics : MetricFns :=
  ⟨count_accuracy, zero_metric, zero_metric, zero_metric, zero_conf⟩

/-- A network where every request succeeds with status 200. -/
def probe200 : String → NetResult := fun _ => .status 200

/-- A network where every request yields status 404. -/
def probe404 : String → NetResult := fun _ => .status 404

/-- A network where every request raises. -/
def probeFail : String → NetResult := fun _ => .failure "connection refused"

def truthy : Option String → Bool
  | none => false
  | some s => !(s == "")

/-! ## `evaluate` of `challenge_1/main.py` (structured / JSON variant) -/

/-- `evaluate(ground_truth_file, submission_file, phase_code,
leaderboard_threshold=0.9, **kwargs)` of `challenge_1/main.py`, after the
two `json.load` calls (modelled by the already-parsed `JFile` inputs).
`probe` answers the HEAD requests of `validate_url`, `post` answers the
optional Discord POST.  Returns the result (`ValueError` / `KeyError` when
the script raises) and the events in program order.  Note the commented-out
raise at the URL check: an invalid link is only printed.  The final
`print(output)` is not modelled as a diagnostic string. -/
def evaluate_json (probe post : String → NetResult) (M : MetricFns)
    (gt_data sub_data : JFile) (phase_code : String)
    (leaderboard_threshold : ℚ) (discord_webhook : Option String) :
    Except EvalError JVal × List Event :=
  let v1 := validate_url probe (sub_data.hf_link.getD "") "Model Link"
  let v2 := validate_url probe (sub_data.pdf_link.getD "") "PDF Report"
  let model_link_valid : ℕ := if v1.1 then 1 else 0
  let pdf_link_valid : ℕ := if v2.1 then 1 else 0
  let ev0 := v1.2 ++ v2.2 ++
    (if model_link_valid = 0 ∨ pdf_link_valid = 0 then
      [Event.diag "Submission contains invalid Model Link or PDF Report URL."]
     else [])
  match getPredictions gt_data with
  | .error e => (.error e, ev0)
  | .ok gt_items =>
    match buildMapJ gt_items "video_id" "true_label" with
    | .error e => (.error e, ev0)
    | .ok ground_truth =>
      match getPredictions sub_data with
      | .error e => (.error e, ev0)
      | .ok sub_items =>
        match buildMapJ sub_items "video_id" "prediction" with
        | .error e => (.error e, ev0)
        | .ok submission =>
          if sameKeys submission ground_truth then
            let y_true := labelsOf ground_truth
            let y_pred := labelsOf submission
            let accuracy := M.accuracy_score y_true y_pred
            let f1 := M.f1_score y_true y_pred
            let notifyEv : List Event :=
              if leaderboard_threshold ≤ accuracy ∧ truthy discord_webhook = true then
                match discord_webhook with
                | some w =>
                  Event.post w ::
                    (match post w with
                     | .failure e =>
                       [Event.diag ("Error sending notification to Discord: " ++ e)]
                     | .status _ => [])
                | none => []
              else []
            let inner := JVal.obj
              [("accuracy", .num accuracy), ("f1_score", .num f1),
               ("model_link_valid", .num (model_link_valid : ℚ)),
               ("pdf_link_valid", .num (pdf_link_valid : ℚ))]
            (.ok (JVal.obj
                [("result", .arr [JVal.obj [("train_split", inner)]]),
                 ("submission_result", inner)]),
             ev0 ++ [Event.metrics] ++ notifyEv ++
               [Event.diag "Completed evaluation for Dev Phase"])
          else
            (.error (.valueError
               "Submission and ground truth files must have the same video keys."),
             ev0)

/-! ## `evaluate` of `main_ear.py` (tabular / CSV variant) -/

/-- `evaluate(submission_file, ground_truth_file)` of `main_ear.py`, after
the two `csv.reader` calls (modelled by the already-parsed row lists).
Here an invalid link is fatal: the script raises before parsing the
submission predictions and before any metric computation. -/
def evaluate_csv (probe : String → NetResult) (M : MetricFns)
    (submission_rows ground_truth_rows : List (List String)) :
    Except EvalError JVal × List Event :=
  match load_tabular_map ground_truth_rows with
  | .error e => (.error e, [])
  | .ok ground_truth =>
    match cellAt submission_rows 0 with
    | .error e => (.error e, [])
    | .ok cell0 =>
      match cellAt submission_rows 1 with
      | .error e => (.error e, [])
      | .ok cell1 =>
        let model_link := extract_link cell0
        let pdf_link := extract_link cell1
        let v1 := validate_url probe model_link "Model Link"
        let v2 := validate_url probe pdf_link "PDF Report"
        let model_link_valid : ℕ := if v1.1 then 1 else 0
        let pdf_link_valid : ℕ := if v2.1 then 1 else 0
        let ev0 := v1.2 ++ v2.2
        if model_link_valid = 0 ∨ pdf_link_valid = 0 then
          (.error (.valueError
             "Submission contains invalid Model Link or PDF Report URL."),
           ev0)
        else
          match load_tabular_map submission_rows with
          | .error e => (.error e, ev0)
          | .ok submission =>
            if sameKeys submission ground_truth then
              let y_true := labelsOf ground_truth
              let y_pred := labelsOf submission
              (.ok (JVal.obj
                  [("accuracy", .num (M.accuracy_score y_true y_pred)),
                   ("precision", .num (M.precision_score y_true y_pred)),
                   ("recall", .num (M.recall_score y_true y_pred)),
                   ("f1_score", .num (M.f1_score y_true y_pred)),
                   ("confusion_matrix", intMatrixToJ (M.confusion_matrix y_true y_pred)),
                   ("model_link_valid", .num (model_link_valid : ℚ)),
                   ("pdf_link_valid", .num (pdf_link_valid : ℚ))]),
               ev0 ++ [Event.metrics])
            else
              (.error (.valueError
                 "Submission and ground truth files must have the same video keys."),
               ev0)



/-- Concrete structured ground truth used by witnesses: `{v1: cat}`. -/
def gtFileW : JFile := ⟨some [[("video_id", "v1"), ("true_label", "cat")]], none, none⟩

/-- Concrete structured submission used by witnesses: `{v1: cat}` with both
links set to `example.com`. -/
def subFileW : JFile :=
  ⟨some [[("video_id", "v1"), ("prediction", "cat")]],
    some "example.com", some "example.com"⟩

/-- A concrete successful tabular run, used by the C9 witness. -/
def csvRunW : Except EvalError JVal × List Event :=
  evaluate_csv probe200 countMetrics
    [["Model Link: example.com"], ["PDF: example.com"], ["v1", "cat"]]
    [["h"], ["h"], ["v1", "cat"]]

/-- A concrete successful structured run, used by the C9 witness. -/
def jsonRunW : Except EvalError JVal × List Event :=
  evaluate_json probe200 probe200 countMetrics gtFileW subFileW "dev" 0 none

/-- The payload of a successful run (dummy value on error). -/
def okPayload (r : Except EvalError JVal) : JVal :=
  match r with
  | .ok v => v
  | .error _ => .num 0

/-! ## Helper lemmas about `validate_url` -/

theorem validate_url_no_match (probe : String → NetResult) (url t : String)
    (h : re_match_url url = false) :
    validate_url probe url t =
      (false, [Event.diag ("Invalid " ++ t ++ " URL format: " ++ url)]) := by
  unfold validate_url
  simp [h]

theorem vu_metrics_not_mem (probe : String → NetResult) (url t : String) :
    Event.metrics ∉ (validate_url probe url t).2 := by
  unfold validate_url
  split
  · split
    · split <;> simp
    · simp
  · simp

theorem vu_post_not_mem (probe : String → NetResult) (url t w : String) :
    Event.post w ∉ (validate_url probe url t).2 := by
  unfold validate_url
  split
  · split
    · split <;> simp
    · simp
  · simp

/-! ## Claim C3 -/

/-- C3: for every url string that does not match the URL format regular
expression, `validate_url` returns false and performs no network access at
all (no HEAD event is emitted); in particular the input
`"ftp://example.com/model"` fails the format check, so it is rejected with
zero network calls. -/
theorem c3_format_fail_closed :
    (∀ (probe : String → NetResult) (url t : String),
        re_match_url url = false →
        (validate_url probe url t).1 = false ∧
        (validate_url probe url t).2.countP isHead = 0) ∧
    re_match_url "ftp://example.com/model" = false := by
  constructor
  · intro probe url t h
    rw [validate_url_no_match probe url t h]
    refine ⟨rfl, ?_⟩
    simp [List.countP_cons, isHead]
  · decide

/-- Witness for C3 at the concrete input `"ftp://example.com/model"`. -/
theorem c3_witness :
    (validate_url probe200 "ftp://example.com/model" "Model Link").1 = false ∧
    (validate_url probe200 "ftp://example.com/model" "Model Link").2.countP isHead = 0 :=
  c3_format_fail_closed.1 probe200 "ftp://example.com/model" "Model Link" (by decide)

/-! ## Claim C4 -/

/-- C4: for every url that passes the format check, `validate_url` returns
true iff the HEAD probe answers HTTP status exactly 200; any other status
and any network-level failure make it return false with a diagnostic, and
exactly one HEAD request is issued (no retry). -/
theorem c4_reachability_200 :
    ∀ (probe : String → NetResult) (url t : String),
      re_match_url url = true →
      ((validate_url probe url t).1 = true ↔ probe url = NetResult.status 200) ∧
      (validate_url probe url t).2.countP isHead = 1 ∧
      ((validate_url probe url t).1 = false →
        (validate_url probe url t).2.countP isDiag = 1) := by
  intro probe url t h
  unfold validate_url
  simp only [h, if_true]
  cases hp : probe url with
  | status code =>
    by_cases hc : code = 200
    · subst hc
      simp [isHead]
    · simp [hc, List.countP_cons, isHead, isDiag]
  | failure msg =>
    simp [List.countP_cons, isHead, isDiag]

/-- Witness for C4: a well-formed url probed with status 404 yields false
(and would yield true only on 200), with exactly one HEAD and one diagnostic. -/
theorem c4_witness :
    ((validate_url probe404 "https://example.com/report.pdf" "PDF Report").1 = true ↔
      probe404 "https://example.com/report.pdf" = NetResult.status 200) ∧
    (validate_url probe404 "https://example.com/report.pdf" "PDF Report").2.countP isHead = 1 ∧
    ((validate_url probe404 "https://example.com/report.pdf" "PDF Report").1 = false →
      (validate_url probe404 "https://example.com/report.pdf" "PDF Report").2.countP isDiag = 1) :=
  c4_reachability_200 probe404 "https://example.com/report.pdf" "PDF Report" (by decide)

theorem metrics_not_in_vu2_diag (probe : String → NetResult)
    (u1 t1 u2 t2 : String) (c : Prop) [Decidable c] (m : String) :
    Event.metrics ∉
      ((validate_url probe u1 t1).2 ++ (validate_url probe u2 t2).2 ++
        (if c then [Event.diag m] else [])) := by
  intro h
  rcases List.mem_append.mp h with h | h
  · rcases List.mem_append.mp h with h | h
    · exact vu_metrics_not_mem probe u1 t1 h
    · exact vu_metrics_not_mem probe u2 t2 h
  · revert h
    split <;> simp

theorem metrics_not_in_vu2 (probe : String → NetResult)
    (u1 t1 u2 t2 : String) :
    Event.metrics ∉ ((validate_url probe u1 t1).2 ++ (validate_url probe u2 t2).2) := by
  intro h
  rcases List.mem_append.mp h with h | h
  · exact vu_metrics_not_mem probe u1 t1 h
  · exact vu_metrics_not_mem probe u2 t2 h

/-! ## Claim C2 -/

/-- C2: in both variants, when the parsed id key sets of ground truth and
submission differ as sets, `evaluate` raises the key-mismatch `ValueError`
and the metric computation is never reached; conversely the metric
computation is reached only when the two key sets are set-equal.  (The
hypotheses state that the run has reached reconciliation: parsing succeeded
and, in the tabular variant where link failure is fatal, both links
validated.) -/
theorem c2_reconcile_gates_metrics :
    (∀ (probe post : String → NetResult) (M : MetricFns) (gt_data sub_data : JFile)
        (phase : String) (thr : ℚ) (hook : Option String)
        (gt_items sub_items : List JObj) (gtm subm : Dict),
        getPredictions gt_data = .ok gt_items →
        buildMapJ gt_items "video_id" "true_label" = .ok gtm →
        getPredictions sub_data = .ok sub_items →
        buildMapJ sub_items "video_id" "prediction" = .ok subm →
        sameKeys subm gtm = false →
        (evaluate_json probe post M gt_data sub_data phase thr hook).1 =
          .error (.valueError
            "Submission and ground truth files must have the same video keys.") ∧
        Event.metrics ∉ (evaluate_json probe post M gt_data sub_data phase thr hook).2) ∧
    (∀ (probe : String → NetResult) (M : MetricFns)
        (srows grows : List (List String)) (gtm subm : Dict) (c0 c1 : String),
        load_tabular_map grows = .ok gtm →
        cellAt srows 0 = .ok c0 →
        cellAt srows 1 = .ok c1 →
        (validate_url probe (extract_link c0) "Model Link").1 = true →
        (validate_url probe (extract_link c1) "PDF Report").1 = true →
        load_tabular_map srows = .ok subm →
        sameKeys subm gtm = false →
        (evaluate_csv probe M srows grows).1 =
          .error (.valueError
            "Submission and ground truth files must have the same video keys.") ∧
        Event.metrics ∉ (evaluate_csv probe M srows grows).2) ∧
    (∀ (probe post : String → NetResult) (M : MetricFns) (gt_data sub_data : JFile)
        (phase : String) (thr : ℚ) (hook : Option String)
        (gt_items sub_items : List JObj) (gtm subm : Dict),
        getPredictions gt_data = .ok gt_items →
        buildMapJ gt_items "video_id" "true_label" = .ok gtm →
        getPredictions sub_data = .ok sub_items →
        buildMapJ sub_items "video_id" "prediction" = .ok subm →
        Event.metrics ∈ (evaluate_json probe post M gt_data sub_data phase thr hook).2 →
        sameKeys subm gtm = true) ∧
    (∀ (probe : String → NetResult) (M : MetricFns)
        (srows grows : List (List String)) (gtm subm : Dict) (c0 c1 : String),
        load_tabular_map grows = .ok gtm →
        cellAt srows 0 = .ok c0 →
        cellAt srows 1 = .ok c1 →
        load_tabular_map srows = .ok subm →
        Event.metrics ∈ (evaluate_csv probe M srows grows).2 →
        sameKeys subm gtm = true) := by
  refine ⟨?_, ?_, ?_, ?_⟩
  · intro probe post M gt_data sub_data phase thr hook gt_items sub_items gtm subm
      h1 h2 h3 h4 h5
    unfold evaluate_json
    simp only [h1, h2, h3, h4, h5, Bool.false_eq_true, if_false]
    exact ⟨by trivial, metrics_not_in_vu2_diag probe _ _ _ _ _ _⟩
  · intro probe M srows grows gtm subm c0 c1 h1 h2 h3 hv1 hv2 h4 h5
    unfold evaluate_csv
    simp only [h1, h2, h3, h4, h5, hv1, if_true, Bool.false_eq_true, if_false]
    simp only [one_ne_zero, false_or, hv2, if_true]
    exact ⟨by trivial, metrics_not_in_vu2 probe _ _ _ _⟩
  · intro probe post M gt_data sub_data phase thr hook gt_items sub_items gtm subm
      h1 h2 h3 h4 hm
    by_cases hs : sameKeys subm gtm = true
    · exact hs
    · exfalso
      rw [Bool.not_eq_true] at hs
      unfold evaluate_json at hm
      simp only [h1, h2, h3, h4, hs, Bool.false_eq_true, if_false] at hm
      exact metrics_not_in_vu2_diag probe _ _ _ _ _ _ hm
  · intro probe M srows grows gtm subm c0 c1 h1 h2 h3 h4 hm
    by_cases hs : sameKeys subm gtm = true
    · exact hs
    · exfalso
      rw [Bool.not_eq_true] at hs
      unfold evaluate_csv at hm
      simp only [h1, h2, h3, h4, hs, Bool.false_eq_true, if_false] at hm
      rcases hb1 : (validate_url probe (extract_link c0) "Model Link").1 with _ | _ <;>
        rcases hb2 : (validate_url probe (extract_link c1) "PDF Report").1 with _ | _ <;>
          simp only [hb1, hb2, if_true, if_false, Bool.false_eq_true] at hm <;>
            exact metrics_not_in_vu2 probe _ _ _ _ hm

/-- Witness for C2: a concrete mismatched pair (`{v1}` vs `{v2}`) in each
variant. -/
theorem c2_witness :
    ((evaluate_json probe200 probe200 countMetrics
        ⟨some [[("video_id", "v1"), ("true_label", "cat")]], none, none⟩
        ⟨some [[("video_id", "v2"), ("prediction", "cat")]],
          some "example.com", some "example.com"⟩
        "dev" 0 none).1 =
      .error (.valueError
        "Submission and ground truth files must have the same video keys.") ∧
     Event.metrics ∉ (evaluate_json probe200 probe200 countMetrics
        ⟨some [[("video_id", "v1"), ("true_label", "cat")]], none, none⟩
        ⟨some [[("video_id", "v2"), ("prediction", "cat")]],
          some "example.com", some "example.com"⟩
        "dev" 0 none).2) ∧
    ((evaluate_csv probe200 countMetrics
        [["Model Link: example.com"], ["PDF: example.com"], ["v2", "cat"]]
        [["h"], ["h"], ["v1", "cat"]]).1 =
      .error (.valueError
        "Submission and ground truth files must have the same video keys.") ∧
     Event.metrics ∉ (evaluate_csv probe200 countMetrics
        [["Model Link: example.com"], ["PDF: example.com"], ["v2", "cat"]]
        [["h"], ["h"], ["v1", "cat"]]).2) :=
  ⟨c2_reconcile_gates_metrics.1 probe200 probe200 countMetrics
      ⟨some [[("video_id", "v1"), ("true_label", "cat")]], none, none⟩
      ⟨some [[("video_id", "v2"), ("prediction", "cat")]],
        some "example.com", some "example.com"⟩
      "dev" 0 none
      [[("video_id", "v1"), ("true_label", "cat")]]
      [[("video_id", "v2"), ("prediction", "cat")]]
      [("v1", "cat")] [("v2", "cat")] rfl rfl rfl rfl (by decide),
   c2_reconcile_gates_metrics.2.1 probe200 countMetrics
      [["Model Link: example.com"], ["PDF: example.com"], ["v2", "cat"]]
      [["h"], ["h"], ["v1", "cat"]]
      [("v1", "cat")] [("v2", "cat")]
      "Model Link: example.com" "PDF: example.com"
      rfl rfl rfl (by decide) (by decide) rfl (by decide)⟩

/-! ## Claim C5 -/

/-- C5: when a required URL fails validation, the tabular variant raises
before any metric computation, while the structured variant only prints the
failure, still reaches the metric computation, and records each URL's
outcome as a 0/1 flag (`model_link_valid`, `pdf_link_valid`) in the
returned result (inside its `submission_result` object). -/
theorem c5_link_policy :
    (∀ (probe : String → NetResult) (M : MetricFns)
        (srows grows : List (List String)) (gtm : Dict) (c0 c1 : String),
        load_tabular_map grows = .ok gtm →
        cellAt srows 0 = .ok c0 →
        cellAt srows 1 = .ok c1 →
        ((validate_url probe (extract_link c0) "Model Link").1 = false ∨
         (validate_url probe (extract_link c1) "PDF Report").1 = false) →
        (evaluate_csv probe M srows grows).1 =
          .error (.valueError
            "Submission contains invalid Model Link or PDF Report URL.") ∧
        Event.metrics ∉ (evaluate_csv probe M srows grows).2) ∧
    (∀ (probe post : String → NetResult) (M : MetricFns) (gt_data sub_data : JFile)
        (phase : String) (thr : ℚ) (hook : Option String)
        (gt_items sub_items : List JObj) (gtm subm : Dict),
        getPredictions gt_data = .ok gt_items →
        buildMapJ gt_items "video_id" "true_label" = .ok gtm →
        getPredictions sub_data = .ok sub_items →
        buildMapJ sub_items "video_id" "prediction" = .ok subm →
        sameKeys subm gtm = true →
        exIsOk (evaluate_json probe post M gt_data sub_data phase thr hook).1 = true ∧
        Event.metrics ∈ (evaluate_json probe post M gt_data sub_data phase thr hook).2 ∧
        okField2 (evaluate_json probe post M gt_data sub_data phase thr hook).1
            "submission_result" "model_link_valid" =
          some (.num (if (validate_url probe (sub_data.hf_link.getD "") "Model Link").1
            then 1 else 0)) ∧
        okField2 (evaluate_json probe post M gt_data sub_data phase thr hook).1
            "submission_result" "pdf_link_valid" =
          some (.num (if (validate_url probe (sub_data.pdf_link.getD "") "PDF Report").1
            then 1 else 0)) ∧
        (((validate_url probe (sub_data.hf_link.getD "") "Model Link").1 = false ∨
          (validate_url probe (sub_data.pdf_link.getD "") "PDF Report").1 = false) →
          Event.diag "Submission contains invalid Model Link or PDF Report URL." ∈
            (evaluate_json probe post M gt_data sub_data phase thr hook).2)) := by
  constructor
  · intro probe M srows grows gtm c0 c1 h1 h2 h3 hv
    unfold evaluate_csv
    rcases hv with hv | hv
    · simp only [h1, h2, h3, hv, Bool.false_eq_true, if_false, eq_self_iff_true,
        true_or, if_true]
      exact ⟨by trivial, metrics_not_in_vu2 probe _ _ _ _⟩
    · simp only [h1, h2, h3, hv, Bool.false_eq_true, if_false, eq_self_iff_true,
        or_true, if_true]
      exact ⟨by trivial, metrics_not_in_vu2 probe _ _ _ _⟩
  · intro probe post M gt_data sub_data phase thr hook gt_items sub_items gtm subm
      h1 h2 h3 h4 h5
    unfold evaluate_json
    simp only [h1, h2, h3, h4, h5, eq_self_iff_true, if_true]
    refine ⟨rfl, ?_, ?_, ?_, ?_⟩
    · simp [List.mem_append]
    · cases hb : (validate_url probe (sub_data.hf_link.getD "") "Model Link").1 <;>
        simp [hb, okField2, jfield]
    · cases hb : (validate_url probe (sub_data.pdf_link.getD "") "PDF Report").1 <;>
        simp [hb, okField2, jfield]
    · intro hv
      rcases hv with hv | hv <;> simp [hv, List.mem_append]



/-- Witness for C5: a 404-answering network makes the tabular variant raise
and the structured variant proceed with 0 flags. -/
theorem c5_witness :
    ((evaluate_csv probe404 countMetrics
        [["Model Link: example.com"], ["PDF: example.com"], ["v1", "cat"]]
        [["h"], ["h"], ["v1", "cat"]]).1 =
      .error (.valueError
        "Submission contains invalid Model Link or PDF Report URL.") ∧
     Event.metrics ∉ (evaluate_csv probe404 countMetrics
        [["Model Link: example.com"], ["PDF: example.com"], ["v1", "cat"]]
        [["h"], ["h"], ["v1", "cat"]]).2) ∧
    (exIsOk (evaluate_json probe404 probe200 countMetrics gtFileW subFileW
        "dev" 0 none).1 = true ∧
     Event.metrics ∈ (evaluate_json probe404 probe200 countMetrics gtFileW subFileW
        "dev" 0 none).2 ∧
     okField2 (evaluate_json probe404 probe200 countMetrics gtFileW subFileW
          "dev" 0 none).1 "submission_result" "model_link_valid" =
       some (.num (if (validate_url probe404 (subFileW.hf_link.getD "") "Model Link").1
         then 1 else 0)) ∧
     okField2 (evaluate_json probe404 probe200 countMetrics gtFileW subFileW
          "dev" 0 none).1 "submission_result" "pdf_link_valid" =
       some (.num (if (validate_url probe404 (subFileW.pdf_link.getD "") "PDF Report").1
         then 1 else 0)) ∧
     (((validate_url probe404 (subFileW.hf_link.getD "") "Model Link").1 = false ∨
       (validate_url probe404 (subFileW.pdf_link.getD "") "PDF Report").1 = false) →
       Event.diag "Submission contains invalid Model Link or PDF Report URL." ∈
         (evaluate_json probe404 probe200 countMetrics gtFileW subFileW
           "dev" 0 none).2)) :=
  ⟨c5_link_policy.1 probe404 countMetrics
      [["Model Link: example.com"], ["PDF: example.com"], ["v1", "cat"]]
      [["h"], ["h"], ["v1", "cat"]]
      [("v1", "cat")] "Model Link: example.com" "PDF: example.com"
      rfl rfl rfl (Or.inl (by decide)),
   c5_link_policy.2 probe404 probe200 countMetrics gtFileW subFileW
      "dev" 0 none
      [[("video_id", "v1"), ("true_label", "cat")]]
      [[("video_id", "v1"), ("prediction", "cat")]]
      [("v1", "cat")] [("v1", "cat")]
      rfl rfl rfl rfl (by decide)⟩

/-! ## Lemmas connecting `pySplit`/`getLastD` with `afterLastSep` -/

theorem pySplit_ne_nil (sep : Char) (s : List Char) : pySplit sep s ≠ [] := by
  induction s with
  | nil => simp [pySplit]
  | cons c cs ih =>
    simp only [pySplit]
    split
    · simp
    · split <;> simp

theorem pySplit_no_sep (sep : Char) (s : List Char) (h : sep ∉ s) :
    pySplit sep s = [s] := by
  induction s with
  | nil => rfl
  | cons c cs ih =>
    have hc : ¬c = sep := fun hc => h (hc ▸ List.mem_cons_self c cs)
    have hcs : sep ∉ cs := fun hm => h (List.mem_cons_of_mem c hm)
    simp only [pySplit, ih hcs]
    simp [hc]

theorem pySplit_two_le (sep : Char) (s : List Char) (h : sep ∈ s) :
    2 ≤ (pySplit sep s).length := by
  induction s with
  | nil => cases h
  | cons c cs ih =>
    simp only [pySplit]
    cases hr : pySplit sep cs with
    | nil => exact absurd hr (pySplit_ne_nil sep cs)
    | cons hd tl =>
      by_cases hc : c = sep
      · simp [hc]
      · have hcs : sep ∈ cs := by
          rcases List.mem_cons.mp h with h1 | h1
          · exact absurd h1.symm hc
          · exact h1
        have := ih hcs
        rw [hr] at this
        simp only [hc, if_false]
        simpa using this

theorem afterLastSep_no_sep (sep : Char) (s : List Char) (h : sep ∉ s) :
    afterLastSep sep s = s := by
  induction s with
  | nil => rfl
  | cons c cs ih =>
    have hc : ¬c = sep := fun hc => h (hc ▸ List.mem_cons_self c cs)
    have hcs : sep ∉ cs := fun hm => h (List.mem_cons_of_mem c hm)
    simp [afterLastSep, hcs, hc]

/-- `afterLastSep` really is "the substring after the last separator": it
contains no separator, and it is either the whole string (no separator at
all) or the suffix right after an occurrence of the separator. -/
theorem afterLastSep_spec (sep : Char) (s : List Char) :
    sep ∉ afterLastSep sep s ∧
      (afterLastSep sep s = s ∨ ∃ pre, s = pre ++ sep :: afterLastSep sep s) := by
  induction s with
  | nil => exact ⟨by simp [afterLastSep], Or.inl rfl⟩
  | cons c cs ih =>
    by_cases hm : sep ∈ cs
    · have h1 : afterLastSep sep (c :: cs) = afterLastSep sep cs := by
        simp [afterLastSep, hm]
      rw [h1]
      refine ⟨ih.1, Or.inr ?_⟩
      rcases ih.2 with h2 | ⟨pre, h2⟩
      · exact absurd hm (by rw [← h2] at hm; exact fun _ => ih.1 hm)
      · exact ⟨c :: pre, by rw [List.cons_append, ← h2]⟩
    · by_cases hc : c = sep
      · have h1 : afterLastSep sep (c :: cs) = cs := by
          simp [afterLastSep, hm, hc]
        rw [h1]
        exact ⟨hm, Or.inr ⟨[], by rw [hc, List.nil_append]⟩⟩
      · have h1 : afterLastSep sep (c :: cs) = c :: cs := by
          simp [afterLastSep, hm, hc]
        rw [h1]
        refine ⟨?_, Or.inl rfl⟩
        intro hx
        rcases List.mem_cons.mp hx with h2 | h2
        · exact hc h2.symm
        · exact hm h2

/-- `s.split(sep)[-1]` equals the substring after the last separator. -/
theorem pySplit_last (sep : Char) (s : List Char) :
    (pySplit sep s).getLastD [] = afterLastSep sep s := by
  induction s with
  | nil => rfl
  | cons c cs ih =>
    simp only [pySplit]
    cases hr : pySplit sep cs with
    | nil => exact absurd hr (pySplit_ne_nil sep cs)
    | cons hd tl =>
      rw [hr] at ih
      by_cases hc : c = sep
      · simp only [hc, if_true, eq_self_iff_true]
        by_cases hm : sep ∈ cs
        · have h1 : afterLastSep sep (sep :: cs) = afterLastSep sep cs := by
            simp [afterLastSep, hm]
          rw [List.getLastD_cons, h1, ← ih]
        · have h1 : afterLastSep sep (sep :: cs) = cs := by
            simp [afterLastSep, hm]
          have h2 := pySplit_no_sep sep cs hm
          rw [hr] at h2
          injection h2 with h3 h4
          subst h3
          rw [List.getLastD_cons, h1, h4]
          rfl
      · simp only [hc, if_false]
        by_cases hm : sep ∈ cs
        · have h1 : afterLastSep sep (c :: cs) = afterLastSep sep cs := by
            simp [afterLastSep, hm]
          have h2 := pySplit_two_le sep cs hm
          rw [hr] at h2
          rcases tl with _ | ⟨x, xs⟩
          · simp at h2
          · rw [h1, ← ih]
            simp only [List.getLastD_cons]
        · have h1 : afterLastSep sep (c :: cs) = c :: cs := by
            simp [afterLastSep, hm, hc]
          have h2 := pySplit_no_sep sep cs hm
          rw [hr] at h2
          injection h2 with h3 h4
          subst h3 h4
          rw [h1]
          rfl

/-! ## The tabular loader on well-formed rows -/

theorem loadRowsGo_ok (rows : List (List String)) :
    ∀ (acc : Dict) (idx : ℕ), 2 ≤ idx →
    (∀ r ∈ rows, 2 ≤ r.length) →
    loadRowsGo idx acc rows =
      .ok (rows.foldl (fun m r => dinsert m (r.getD 0 "") (r.getD 1 "")) acc) := by
  induction rows with
  | nil => intro acc idx _ _; rfl
  | cons r rs ih =>
    intro acc idx hidx hw
    rcases r with _ | ⟨a, _ | ⟨b, t⟩⟩
    · exact absurd (hw [] (List.mem_cons_self _ _)) (by simp)
    · exact absurd (hw [a] (List.mem_cons_self _ _)) (by simp)
    · simp only [loadRowsGo, hidx, if_true, List.get?]
      rw [ih (dinsert acc a b) (idx + 1) (le_trans hidx (Nat.le_succ idx))
        (fun r hr => hw r (List.mem_cons_of_mem _ hr))]
      rfl

theorem load_tabular_map_eq (rows : List (List String))
    (hw : ∀ r ∈ rows.drop 2, 2 ≤ r.length) :
    load_tabular_map rows =
      .ok (dictOfPairs ((rows.drop 2).map (fun r => (r.getD 0 "", r.getD 1 "")))) := by
  rcases rows with _ | ⟨r0, _ | ⟨r1, rest⟩⟩
  · rfl
  · rfl
  · have h2 : load_tabular_map (r0 :: r1 :: rest) = loadRowsGo 2 [] rest := rfl
    rw [h2, loadRowsGo_ok rest [] 2 le_rfl (by simpa using hw)]
    simp [dictOfPairs, List.foldl_map]

/-! ## Claim C6 -/

/-- C6: the tabular variant extracts each link as the substring after the
last colon of the metadata cell (row 0 for the model link, row 1 for the
pdf link in `evaluate_csv`), stripped of surrounding whitespace, and builds
the `{id -> label}` mapping exactly from the rows at index 2 and beyond
(first column as id, second as label), skipping two header rows — the same
loader `load_tabular_map` is applied to the ground-truth and the submission
file. -/
theorem c6_loader_shape :
    (∀ cell : String,
        extract_link cell = String.mk (pyStrip (afterLastSep ':' cell.toList))) ∧
    (∀ (sep : Char) (s : List Char),
        sep ∉ afterLastSep sep s ∧
        (afterLastSep sep s = s ∨ ∃ pre, s = pre ++ sep :: afterLastSep sep s)) ∧
    (∀ rows : List (List String), (∀ r ∈ rows.drop 2, 2 ≤ r.length) →
        load_tabular_map rows =
          .ok (dictOfPairs ((rows.drop 2).map (fun r => (r.getD 0 "", r.getD 1 ""))))) := by
  refine ⟨?_, afterLastSep_spec, load_tabular_map_eq⟩
  intro cell
  unfold extract_link
  rw [pySplit_last]

/-- Witness for C6 on a concrete four-row file. -/
theorem c6_witness :
    load_tabular_map [["Model Link: example.com"], ["PDF: example.com"],
        ["v1", "cat"], ["v2", "dog"]] =
      .ok (dictOfPairs ((([["Model Link: example.com"], ["PDF: example.com"],
        ["v1", "cat"], ["v2", "dog"]].drop 2)).map
          (fun r => (r.getD 0 "", r.getD 1 "")))) :=
  c6_loader_shape.2.2
    [["Model Link: example.com"], ["PDF: example.com"], ["v1", "cat"], ["v2", "dog"]]
    (by decide)

/-- The tabular loader fails only with `IndexError` (narrow rows). -/
theorem loadRowsGo_error (rows : List (List String)) :
    ∀ (idx : ℕ) (acc : Dict) (e : EvalError),
      loadRowsGo idx acc rows = .error e → e = .indexError := by
  induction rows with
  | nil => intro idx acc e h; simp [loadRowsGo] at h
  | cons r rs ih =>
    intro idx acc e h
    simp only [loadRowsGo] at h
    by_cases hidx : 2 ≤ idx
    · simp only [hidx, if_true] at h
      cases hg0 : r.get? 0 with
      | none => rw [hg0] at h; injection h with h1; exact h1.symm
      | some k =>
        rw [hg0] at h
        cases hg1 : r.get? 1 with
        | none => rw [hg1] at h; injection h with h1; exact h1.symm
        | some v => rw [hg1] at h; exact ih _ _ _ h
    · simp only [hidx, if_false] at h
      exact ih _ _ _ h

/-! ## Claim C7 (amended) -/

/-- C7 as amended: malformed structured input (a missing `predictions`
container, or a record missing its identifier/label field, on either side)
makes the structured `evaluate` raise, and a tabular submission file with
fewer than 2 rows makes the tabular `evaluate` raise `IndexError`; but a
short tabular ground-truth file is NOT detected — its loader silently
yields the empty mapping (the claim's "in either the ground-truth or the
submission file" fails on the ground-truth side, see the counterexample). -/
theorem c7_malformed_inputs :
    (∀ (probe post : String → NetResult) (M : MetricFns) (gt_data sub_data : JFile)
        (phase : String) (thr : ℚ) (hook : Option String),
        gt_data.predictions = none →
        (evaluate_json probe post M gt_data sub_data phase thr hook).1 =
          .error (.keyError "predictions")) ∧
    (∀ (probe post : String → NetResult) (M : MetricFns) (gt_data sub_data : JFile)
        (phase : String) (thr : ℚ) (hook : Option String)
        (gt_items : List JObj) (e : EvalError),
        getPredictions gt_data = .ok gt_items →
        buildMapJ gt_items "video_id" "true_label" = .error e →
        (evaluate_json probe post M gt_data sub_data phase thr hook).1 = .error e) ∧
    (∀ (probe post : String → NetResult) (M : MetricFns) (gt_data sub_data : JFile)
        (phase : String) (thr : ℚ) (hook : Option String)
        (gt_items : List JObj) (gtm : Dict),
        getPredictions gt_data = .ok gt_items →
        buildMapJ gt_items "video_id" "true_label" = .ok gtm →
        sub_data.predictions = none →
        (evaluate_json probe post M gt_data sub_data phase thr hook).1 =
          .error (.keyError "predictions")) ∧
    (∀ (probe post : String → NetResult) (M : MetricFns) (gt_data sub_data : JFile)
        (phase : String) (thr : ℚ) (hook : Option String)
        (gt_items sub_items : List JObj) (gtm : Dict) (e : EvalError),
        getPredictions gt_data = .ok gt_items →
        buildMapJ gt_items "video_id" "true_label" = .ok gtm →
        getPredictions sub_data = .ok sub_items →
        buildMapJ sub_items "video_id" "prediction" = .error e →
        (evaluate_json probe post M gt_data sub_data phase thr hook).1 = .error e) ∧
    (∀ (probe : String → NetResult) (M : MetricFns)
        (srows grows : List (List String)),
        srows.length < 2 →
        (evaluate_csv probe M srows grows).1 = .error .indexError) ∧
    (∀ grows : List (List String), grows.length < 2 →
        load_tabular_map grows = .ok []) := by
  refine ⟨?_, ?_, ?_, ?_, ?_, ?_⟩
  · intro probe post M gt_data sub_data phase thr hook h
    have h1 : getPredictions gt_data = .error (.keyError "predictions") := by
      simp [getPredictions, h]
    unfold evaluate_json
    simp only [h1]
  · intro probe post M gt_data sub_data phase thr hook gt_items e h1 h2
    unfold evaluate_json
    simp only [h1, h2]
  · intro probe post M gt_data sub_data phase thr hook gt_items gtm h1 h2 h3
    have h4 : getPredictions sub_data = .error (.keyError "predictions") := by
      simp [getPredictions, h3]
    unfold evaluate_json
    simp only [h1, h2, h4]
  · intro probe post M gt_data sub_data phase thr hook gt_items sub_items gtm e
      h1 h2 h3 h4
    unfold evaluate_json
    simp only [h1, h2, h3, h4]
  · intro probe M srows grows h
    unfold evaluate_csv
    cases hg : load_tabular_map grows with
    | error e =>
      have he := loadRowsGo_error grows 0 [] e hg
      subst he
      rfl
    | ok gtm =>
      rcases srows with _ | ⟨r0, _ | ⟨r1, rest⟩⟩
      · simp [cellAt]
      · cases hc : r0[0]? with
        | none => simp [cellAt, hc]
        | some c => simp [cellAt, hc]
      · exfalso
        simp at h
        omega
  · intro grows h
    rcases grows with _ | ⟨r, _ | ⟨r2, rest⟩⟩
    · rfl
    · rfl
    · exfalso
      simp at h
      omega

/-- Counterexample refuting C7 as stated: a one-row (short) tabular
ground-truth file together with a headers-only submission is silently
recovered into a successful run over the empty mapping — no
malformed-input error is signalled. -/
theorem c7_counterexample :
    ([["gt header only"]] : List (List String)).length < 2 ∧
    load_tabular_map [["gt header only"]] = .ok [] ∧
    exIsOk (evaluate_csv probe200 countMetrics
      [["Model Link: example.com"], ["PDF: example.com"]]
      [["gt header only"]]).1 = true :=
  ⟨by decide, rfl, by decide⟩

/-- Witness for C7: a missing `predictions` container raises `KeyError`,
and an empty tabular submission raises `IndexError`. -/
theorem c7_witness :
    (evaluate_json probe200 probe200 countMetrics ⟨none, none, none⟩ subFileW
        "dev" 0 none).1 = .error (.keyError "predictions") ∧
    (evaluate_csv probe200 countMetrics [] [["h"], ["h"], ["v1", "cat"]]).1 =
      .error .indexError :=
  ⟨c7_malformed_inputs.1 probe200 probe200 countMetrics ⟨none, none, none⟩ subFileW
      "dev" 0 none rfl,
   c7_malformed_inputs.2.2.2.2.1 probe200 countMetrics [] [["h"], ["h"], ["v1", "cat"]]
      (by decide)⟩

theorem post_not_in_diag_ite (c : Prop) [Decidable c] (m w : String) :
    Event.post w ∉ (if c then [Event.diag m] else []) := by
  split <;> simp

/-! ## Claim C8 -/

/-- C8: in the structured variant, the notification POST is attempted
exactly when the computed accuracy reaches the configured threshold and a
(non-empty) notification endpoint was supplied; and the run completes with
its result for every outcome of the POST (delivery failure is swallowed). -/
theorem c8_notification_policy :
    ∀ (probe post : String → NetResult) (M : MetricFns) (gt_data sub_data : JFile)
      (phase : String) (thr : ℚ) (hook : Option String)
      (gt_items sub_items : List JObj) (gtm subm : Dict),
      getPredictions gt_data = .ok gt_items →
      buildMapJ gt_items "video_id" "true_label" = .ok gtm →
      getPredictions sub_data = .ok sub_items →
      buildMapJ sub_items "video_id" "prediction" = .ok subm →
      sameKeys subm gtm = true →
      exIsOk (evaluate_json probe post M gt_data sub_data phase thr hook).1 = true ∧
      ((∃ w, Event.post w ∈ (evaluate_json probe post M gt_data sub_data phase thr hook).2) ↔
        (thr ≤ M.accuracy_score (labelsOf gtm) (labelsOf subm) ∧ truthy hook = true)) ∧
      (∀ w, hook = some w →
        thr ≤ M.accuracy_score (labelsOf gtm) (labelsOf subm) →
        truthy hook = true →
        Event.post w ∈ (evaluate_json probe post M gt_data sub_data phase thr hook).2) := by
  intro probe post M gt_data sub_data phase thr hook gt_items sub_items gtm subm
    h1 h2 h3 h4 h5
  unfold evaluate_json
  simp only [h1, h2, h3, h4, h5, eq_self_iff_true, if_true]
  refine ⟨rfl, ?_, ?_⟩
  · constructor
    · rintro ⟨w, hw⟩
      by_cases hcond : thr ≤ M.accuracy_score (labelsOf gtm) (labelsOf subm) ∧
          truthy hook = true
      · exact hcond
      · exfalso
        simp only [hcond, if_false] at hw
        simp [List.mem_append, vu_post_not_mem, post_not_in_diag_ite] at hw
    · rintro ⟨hle, ht⟩
      cases hook with
      | none => simp [truthy] at ht
      | some w =>
        refine ⟨w, ?_⟩
        simp [List.mem_append]
        tauto
  · intro w hw hle ht
    subst hw
    simp [List.mem_append]
    tauto

/-- Witness for C8: with threshold 0 and a supplied endpoint the POST event
occurs, and the run completes even though the POST raises. -/
theorem c8_witness :
    exIsOk (evaluate_json probe200 probeFail countMetrics gtFileW subFileW
        "dev" 0 (some "hook.example.com")).1 = true ∧
    Event.post "hook.example.com" ∈
      (evaluate_json probe200 probeFail countMetrics gtFileW subFileW
        "dev" 0 (some "hook.example.com")).2 :=
  ⟨(c8_notification_policy probe200 probeFail countMetrics gtFileW subFileW "dev" 0
      (some "hook.example.com")
      [[("video_id", "v1"), ("true_label", "cat")]]
      [[("video_id", "v1"), ("prediction", "cat")]]
      [("v1", "cat")] [("v1", "cat")] rfl rfl rfl rfl (by decide)).1,
   (c8_notification_policy probe200 probeFail countMetrics gtFileW subFileW "dev" 0
      (some "hook.example.com")
      [[("video_id", "v1"), ("true_label", "cat")]]
      [[("video_id", "v1"), ("prediction", "cat")]]
      [("v1", "cat")] [("v1", "cat")] rfl rfl rfl rfl (by decide)).2.2
      "hook.example.com" rfl (by decide) (by decide)⟩

/-! ## Claim C9 (amended) -/

/-- C9 as amended: every successful run of the tabular variant returns a
mapping whose top-level keys are exactly `accuracy`, `precision`, `recall`,
`f1_score`, `confusion_matrix`, `model_link_valid`, `pdf_link_valid` (both
flags equal to 1, since a link failure is fatal there); every successful
run of the structured variant returns a mapping whose top-level keys are
`result` and `submission_result` only — its `accuracy`, `f1_score` and 0/1
link flags sit inside the nested `submission_result` object, not at the
top level (so the claim's "in both variants" fails for the structured
variant, see the counterexample). -/
theorem c9_payload_shape :
    (∀ (probe : String → NetResult) (M : MetricFns)
        (srows grows : List (List String)) (v : JVal),
        (evaluate_csv probe M srows grows).1 = .ok v →
        topKeysV v = ["accuracy", "precision", "recall", "f1_score",
          "confusion_matrix", "model_link_valid", "pdf_link_valid"] ∧
        jfield v "model_link_valid" = some (.num 1) ∧
        jfield v "pdf_link_valid" = some (.num 1)) ∧
    (∀ (probe post : String → NetResult) (M : MetricFns) (gt_data sub_data : JFile)
        (phase : String) (thr : ℚ) (hook : Option String) (v : JVal),
        (evaluate_json probe post M gt_data sub_data phase thr hook).1 = .ok v →
        topKeysV v = ["result", "submission_result"] ∧
        ∃ (a f : ℚ) (mlv plv : ℕ),
          (mlv = 0 ∨ mlv = 1) ∧ (plv = 0 ∨ plv = 1) ∧
          jfield v "submission_result" =
            some (JVal.obj [("accuracy", .num a), ("f1_score", .num f),
              ("model_link_valid", .num (mlv : ℚ)),
              ("pdf_link_valid", .num (plv : ℚ))])) := by
  constructor
  · intro probe M srows grows v h
    simp only [evaluate_csv] at h
    cases h1 : load_tabular_map grows with
    | error e => simp [h1] at h
    | ok gtm =>
    simp only [h1] at h
    cases h2 : cellAt srows 0 with
    | error e => simp [h2] at h
    | ok c0 =>
    simp only [h2] at h
    cases h3 : cellAt srows 1 with
    | error e => simp [h3] at h
    | ok c1 =>
    simp only [h3] at h
    cases hb1 : (validate_url probe (extract_link c0) "Model Link").1 with
    | false => simp [hb1] at h
    | true =>
    simp only [hb1, eq_self_iff_true, if_true] at h
    cases hb2 : (validate_url probe (extract_link c1) "PDF Report").1 with
    | false => simp [hb2] at h
    | true =>
    simp only [hb2, eq_self_iff_true, if_true, one_ne_zero, or_self, if_false] at h
    cases h4 : load_tabular_map srows with
    | error e => simp [h4] at h
    | ok subm =>
    simp only [h4] at h
    cases h5 : sameKeys subm gtm with
    | false => simp [h5] at h
    | true =>
    simp only [h5, eq_self_iff_true, if_true, Except.ok.injEq, Nat.cast_one] at h
    subst h
    refine ⟨by simp [topKeysV], by simp [jfield], by simp [jfield]⟩
  · intro probe post M gt_data sub_data phase thr hook v h
    simp only [evaluate_json] at h
    cases h1 : getPredictions gt_data with
    | error e => simp [h1] at h
    | ok gt_items =>
    simp only [h1] at h
    cases h2 : buildMapJ gt_items "video_id" "true_label" with
    | error e => simp [h2] at h
    | ok gtm =>
    simp only [h2] at h
    cases h3 : getPredictions sub_data with
    | error e => simp [h3] at h
    | ok sub_items =>
    simp only [h3] at h
    cases h4 : buildMapJ sub_items "video_id" "prediction" with
    | error e => simp [h4] at h
    | ok subm =>
    simp only [h4] at h
    cases h5 : sameKeys subm gtm with
    | false => simp [h5] at h
    | true =>
    simp only [h5, eq_self_iff_true, if_true, Except.ok.injEq] at h
    subst h
    refine ⟨by simp [topKeysV], ?_⟩
    refine ⟨M.accuracy_score (labelsOf gtm) (labelsOf subm),
      M.f1_score (labelsOf gtm) (labelsOf subm),
      (if (validate_url probe (sub_data.hf_link.getD "") "Model Link").1 then 1 else 0),
      (if (validate_url probe (sub_data.pdf_link.getD "") "PDF Report").1 then 1 else 0),
      ?_, ?_, ?_⟩
    · cases (validate_url probe (sub_data.hf_link.getD "") "Model Link").1 <;> simp
    · cases (validate_url probe (sub_data.pdf_link.getD "") "PDF Report").1 <;> simp
    · simp [jfield]

/-- Counterexample refuting C9 as stated: a successful structured run whose
returned mapping has top-level keys `result` and `submission_result` only —
none of `accuracy`, `f1_score`, `model_link_valid`, `pdf_link_valid` is a
key of the returned payload itself. -/
theorem c9_counterexample :
    topKeys (evaluate_json probe200 probe200 countMetrics gtFileW subFileW
        "dev" 0 none).1 = ["result", "submission_result"] ∧
    "accuracy" ∉ topKeys (evaluate_json probe200 probe200 countMetrics gtFileW subFileW
        "dev" 0 none).1 ∧
    "f1_score" ∉ topKeys (evaluate_json probe200 probe200 countMetrics gtFileW subFileW
        "dev" 0 none).1 ∧
    "model_link_valid" ∉ topKeys (evaluate_json probe200 probe200 countMetrics gtFileW
        subFileW "dev" 0 none).1 ∧
    "pdf_link_valid" ∉ topKeys (evaluate_json probe200 probe200 countMetrics gtFileW
        subFileW "dev" 0 none).1 :=
  ⟨by decide, by decide, by decide, by decide, by decide⟩




/-- Witness for C9 (amended) at two concrete successful runs. -/
theorem c9_witness :
    (topKeysV (okPayload csvRunW.1) = ["accuracy", "precision", "recall", "f1_score",
        "confusion_matrix", "model_link_valid", "pdf_link_valid"] ∧
      jfield (okPayload csvRunW.1) "model_link_valid" = some (.num 1) ∧
      jfield (okPayload csvRunW.1) "pdf_link_valid" = some (.num 1)) ∧
    (topKeysV (okPayload jsonRunW.1) = ["result", "submission_result"] ∧
      ∃ (a f : ℚ) (mlv plv : ℕ),
        (mlv = 0 ∨ mlv = 1) ∧ (plv = 0 ∨ plv = 1) ∧
        jfield (okPayload jsonRunW.1) "submission_result" =
          some (JVal.obj [("accuracy", .num a), ("f1_score", .num f),
            ("model_link_valid", .num (mlv : ℚ)),
            ("pdf_link_valid", .num (plv : ℚ))])) :=
  ⟨c9_payload_shape.1 probe200 countMetrics
      [["Model Link: example.com"], ["PDF: example.com"], ["v1", "cat"]]
      [["h"], ["h"], ["v1", "cat"]]
      (okPayload csvRunW.1) rfl,
   c9_payload_shape.2 probe200 probe200 countMetrics gtFileW subFileW
      "dev" 0 none (okPayload jsonRunW.1) rfl⟩

/-! ## Strings that begin with `//` never match the URL pattern -/

theorem matchURLcore_slash (s : List Char) : matchURLcore ('/' :: s) = false := by
  have h1 : matchDomainPath ('/' :: s) = false := by
    simp [matchDomainPath, List.findIdx?_cons, matchDomain, pySplit]
  have h2 : (('/' :: s).take 7 == "http://".toList) = false := by
    apply beq_eq_false_iff_ne.mpr
    intro hcontra
    rw [List.take_succ_cons] at hcontra
    injection hcontra with h3 h4
    exact absurd h3 (by decide)
  have h3 : (('/' :: s).take 8 == "https://".toList) = false := by
    apply beq_eq_false_iff_ne.mpr
    intro hcontra
    rw [List.take_succ_cons] at hcontra
    injection hcontra with h3 h4
    exact absurd h3 (by decide)
  simp [matchURLcore, h1, h2, h3]

theorem re_match_url_dslash (t : List Char) :
    re_match_url (String.mk ('/' :: '/' :: t)) = false := by
  unfold re_match_url
  simp only [show (String.mk ('/' :: '/' :: t)).toList = '/' :: '/' :: t from rfl]
  have hd : ('/' :: '/' :: t).dropLast = '/' :: ('/' :: t).dropLast := by
    cases t <;> rfl
  simp [matchURLcore_slash, hd]

theorem rstrip_cons_not_space (c : Char) (cs : List Char) (h : isPySpace c = false) :
    rstrip (c :: cs) = c :: rstrip cs := by
  simp only [rstrip]
  cases hr : rstrip cs with
  | nil => simp [h, hr]
  | cons x xs => rfl

theorem afterLastSep_append (sep : Char) (pre t : List Char) (ht : sep ∉ t) :
    afterLastSep sep (pre ++ sep :: t) = t := by
  induction pre with
  | nil =>
    simp only [List.nil_append, afterLastSep]
    simp [ht]
  | cons p ps ih =>
    have hm : sep ∈ ps ++ sep :: t := by simp
    rw [List.cons_append]
    rw [show afterLastSep sep (p :: (ps ++ sep :: t)) =
        if sep ∈ ps ++ sep :: t then afterLastSep sep (ps ++ sep :: t)
        else if p = sep then (ps ++ sep :: t) else p :: (ps ++ sep :: t) from rfl]
    rw [if_pos hm]
    exact ih

/-- When the last colon of a metadata cell is the colon of a `"://"` scheme
separator, `split(":")[-1].strip()` yields a string beginning with `"//"`. -/
theorem extract_link_scheme_tail (pre q : List Char) (hq : (':' : Char) ∉ q) :
    extract_link (String.mk (pre ++ ':' :: '/' :: '/' :: q)) =
      String.mk ('/' :: '/' :: rstrip q) := by
  unfold extract_link
  have ht : (':' : Char) ∉ ('/' :: '/' :: q) := by
    intro hx
    rcases List.mem_cons.mp hx with h1 | hx
    · exact absurd h1 (by decide)
    rcases List.mem_cons.mp hx with h1 | hx
    · exact absurd h1 (by decide)
    · exact hq hx
  have h0 : (String.mk (pre ++ ':' :: '/' :: '/' :: q)).toList =
      pre ++ ':' :: '/' :: '/' :: q := rfl
  rw [h0, pySplit_last, afterLastSep_append ':' pre ('/' :: '/' :: q) ht]
  have hl : lstrip ('/' :: '/' :: q) = '/' :: '/' :: q := rfl
  unfold pyStrip
  rw [hl, rstrip_cons_not_space '/' ('/' :: q) (by decide),
    rstrip_cons_not_space '/' q (by decide)]

/-! ## Claim C10 -/

/-- Counterexample refuting C10 as stated: the metadata cell
`"Model Link: https://example.com/v:ab.cd"` contains `"://"`, yet its
last-colon extraction is `"ab.cd"` (not a string beginning with `"//"`),
which does match the format regular expression, so `validate_url` issues a
HEAD request and — on a 200 answer — returns true, and `evaluate` does not
raise. -/
theorem c10_counterexample :
    hasSub "://".toList "Model Link: https://example.com/v:ab.cd".toList = true ∧
    extract_link "Model Link: https://example.com/v:ab.cd" = "ab.cd" ∧
    re_match_url "ab.cd" = true ∧
    validate_url probe200 (extract_link "Model Link: https://example.com/v:ab.cd")
        "Model Link" = (true, [Event.head "ab.cd"]) ∧
    exIsOk (evaluate_csv probe200 countMetrics
      [["Model Link: https://example.com/v:ab.cd"], ["PDF: example.com"], ["v1", "cat"]]
      [["h"], ["h"], ["v1", "cat"]]).1 = true :=
  ⟨by decide, by decide, by decide, by decide, by decide⟩

/-- C10 as amended: for every row-0/row-1 metadata cell whose LAST colon is
the colon of a scheme separator `"://"` (no colon occurs after it), the
last-colon extraction yields a value beginning with `"//"`; such a value
can never match the format regular expression, `validate_url` rejects it
with a diagnostic and zero network calls, and the tabular `evaluate`
raises.  (For a cell that merely contains `"://"` somewhere, the extraction
can instead yield a value that validates — see the counterexample.) -/
theorem c10_scheme_link :
    (∀ pre q : List Char, (':' : Char) ∉ q →
        extract_link (String.mk (pre ++ ':' :: '/' :: '/' :: q)) =
          String.mk ('/' :: '/' :: rstrip q)) ∧
    (∀ t : List Char, re_match_url (String.mk ('/' :: '/' :: t)) = false) ∧
    (∀ (probe : String → NetResult) (pre q : List Char) (ty : String),
        (':' : Char) ∉ q →
        validate_url probe (extract_link (String.mk (pre ++ ':' :: '/' :: '/' :: q))) ty =
          (false, [Event.diag ("Invalid " ++ ty ++ " URL format: " ++
            extract_link (String.mk (pre ++ ':' :: '/' :: '/' :: q)))])) ∧
    (∀ (probe : String → NetResult) (M : MetricFns)
        (srows grows : List (List String)) (gtm : Dict) (pre q : List Char) (c1 : String),
        load_tabular_map grows = .ok gtm →
        cellAt srows 0 = .ok (String.mk (pre ++ ':' :: '/' :: '/' :: q)) →
        cellAt srows 1 = .ok c1 →
        (':' : Char) ∉ q →
        (evaluate_csv probe M srows grows).1 =
          .error (.valueError
            "Submission contains invalid Model Link or PDF Report URL.")) := by
  have hre : ∀ pre q : List Char, (':' : Char) ∉ q →
      re_match_url (extract_link (String.mk (pre ++ ':' :: '/' :: '/' :: q))) = false := by
    intro pre q hq
    rw [extract_link_scheme_tail pre q hq]
    exact re_match_url_dslash (rstrip q)
  refine ⟨extract_link_scheme_tail, re_match_url_dslash, ?_, ?_⟩
  · intro probe pre q ty hq
    exact validate_url_no_match probe _ ty (hre pre q hq)
  · intro probe M srows grows gtm pre q c1 h1 h2 h3 hq
    have hv : (validate_url probe
        (extract_link (String.mk (pre ++ ':' :: '/' :: '/' :: q))) "Model Link").1 = false := by
      rw [validate_url_no_match probe _ "Model Link" (hre pre q hq)]
    unfold evaluate_csv
    simp only [h1, h2, h3, hv, Bool.false_eq_true, if_false, eq_self_iff_true,
      true_or, if_true]

/-- Witness for C10 (amended): the cell
`"Model Link: https://example.com/model"`, whose last colon is the scheme
colon, strips to `"//example.com/model"`, fails the format check, and makes
the tabular `evaluate` raise. -/
theorem c10_witness :
    extract_link (String.mk ("Model Link: https".toList ++
        ':' :: '/' :: '/' :: "example.com/model".toList)) =
      String.mk ('/' :: '/' :: rstrip "example.com/model".toList) ∧
    re_match_url (String.mk ('/' :: '/' :: "example.com/model".toList)) = false ∧
    validate_url probe200 (extract_link (String.mk ("Model Link: https".toList ++
        ':' :: '/' :: '/' :: "example.com/model".toList))) "Model Link" =
      (false, [Event.diag ("Invalid " ++ "Model Link" ++ " URL format: " ++
        extract_link (String.mk ("Model Link: https".toList ++
          ':' :: '/' :: '/' :: "example.com/model".toList)))]) ∧
    (evaluate_csv probe200 countMetrics
        [["Model Link: https://example.com/model"], ["PDF: example.com"], ["v1", "cat"]]
        [["h"], ["h"], ["v1", "cat"]]).1 =
      .error (.valueError "Submission contains invalid Model Link or PDF Report URL.") :=
  ⟨c10_scheme_link.1 "Model Link: https".toList "example.com/model".toList (by decide),
   c10_scheme_link.2.1 "example.com/model".toList,
   c10_scheme_link.2.2.1 probe200 "Model Link: https".toList
     "example.com/model".toList "Model Link" (by decide),
   c10_scheme_link.2.2.2 probe200 countMetrics
     [["Model Link: https://example.com/model"], ["PDF: example.com"], ["v1", "cat"]]
     [["h"], ["h"], ["v1", "cat"]] [("v1", "cat")]
     "Model Link: https".toList "example.com/model".toList "PDF: example.com"
     rfl rfl rfl (by decide)⟩

/-! ## Claim C1 -/

/-- C1 (demonstrating a code bug): `y_true` is built in ground-truth
iteration order but `y_pred` is built in SUBMISSION iteration order
(`[submission[k] for k in submission]`), not in ground-truth order.  On the
concrete input below the two parsed dicts have equal key sets `{v1, v2}`
but opposite insertion orders; every per-id prediction disagrees with the
ground truth (`v1: cat vs dog`, `v2: dog vs cat`), yet the two label
sequences handed to the metric functions are the identical list
`["cat", "dog"]` — index 0 of `y_true` is the label of `v1` while index 0
of `y_pred` is the label of `v2` — so the computed agreement count is
perfect (2 of 2) and the metric stage is reached without complaint. -/
theorem c1_misalignment :
    buildMapJ [[("video_id", "v1"), ("true_label", "cat")],
        [("video_id", "v2"), ("true_label", "dog")]] "video_id" "true_label" =
      .ok [("v1", "cat"), ("v2", "dog")] ∧
    buildMapJ [[("video_id", "v2"), ("prediction", "cat")],
        [("video_id", "v1"), ("prediction", "dog")]] "video_id" "prediction" =
      .ok [("v2", "cat"), ("v1", "dog")] ∧
    sameKeys [("v2", "cat"), ("v1", "dog")] [("v1", "cat"), ("v2", "dog")] = true ∧
    dkeys [("v1", "cat"), ("v2", "dog")] = ["v1", "v2"] ∧
    dkeys [("v2", "cat"), ("v1", "dog")] = ["v2", "v1"] ∧
    labelsOf [("v1", "cat"), ("v2", "dog")] = ["cat", "dog"] ∧
    labelsOf [("v2", "cat"), ("v1", "dog")] = ["cat", "dog"] ∧
    dget [("v1", "cat"), ("v2", "dog")] "v1" ≠ dget [("v2", "cat"), ("v1", "dog")] "v1" ∧
    dget [("v1", "cat"), ("v2", "dog")] "v2" ≠ dget [("v2", "cat"), ("v1", "dog")] "v2" ∧
    Event.metrics ∈ (evaluate_json probe200 probe200 countMetrics
      ⟨some [[("video_id", "v1"), ("true_label", "cat")],
        [("video_id", "v2"), ("true_label", "dog")]], none, none⟩
      ⟨some [[("video_id", "v2"), ("prediction", "cat")],
        [("video_id", "v1"), ("prediction", "dog")]],
        some "example.com", some "example.com"⟩ "dev" 0 none).2 ∧
    countMetrics.accuracy_score (labelsOf [("v1", "cat"), ("v2", "dog")])
      (labelsOf [("v2", "cat"), ("v1", "dog")]) = 2 := by
  refine ⟨rfl, rfl, by decide, by decide, by decide, by decide, by decide,
    by decide, by decide, by decide, ?_⟩
  decide
